import Mathlib

/-!
Verification development for the proteinjs/conversation tool-invocation loop,
streaming chunk reassembler and usage accumulator.

The embedding follows the TypeScript sources:
  * `UsageData.ts` — `UsageDataAccumulator.addTokenUsage`, `recordToolCall`
  * `OpenAiStreamProcessor` (appended to `UsageData.ts`) — `createControlStream`,
    `handleToolCallDelta`, `handleToolCalls`
  * `OpenAi.ts` — `generateResponseHelper`, `handleToolCalls`, `callTools`,
    `callFunction`
  * `OpenAiResponses.ts` — `run`, `executeFunctionCalls`, `executeFunctionCall`,
    `formatToolReturn`

Conventions of the embedding:
  * JavaScript values flowing through `JSON.parse` / `JSON.stringify` are
    modelled by the inductive `Json` below (integer numerals; string escapes
    for quote, backslash, newline, tab and carriage return — the subset
    exercised by this code base).  `Json.parse` returns `none` where
    `JSON.parse` throws a `SyntaxError`.
  * Asynchronous tool execution is embedded as left-to-right sequential
    execution (the runtime is a single-threaded event loop; result messages
    are reassembled in call order by the source in both modes).
  * A thrown JavaScript error is `Except.error` carrying the message string.
  * `Date` timestamps (`startedAt` / `finishedAt`) and the USD cost fields
    (floating point derived data) are omitted from records: no claim
    references them.
-/

/-- JSON value (integer numerals). -/
inductive Json where
  | null
  | bool (b : Bool)
  | num (n : Int)
  | str (s : String)
  | arr (elems : List Json)
  | obj (members : List (String × Json))

mutual

def Json.decEq : (a b : Json) → Decidable (a = b)
  | .null, .null => .isTrue rfl
  | .null, .bool _ => .isFalse (fun h => Json.noConfusion h)
  | .null, .num _ => .isFalse (fun h => Json.noConfusion h)
  | .null, .str _ => .isFalse (fun h => Json.noConfusion h)
  | .null, .arr _ => .isFalse (fun h => Json.noConfusion h)
  | .null, .obj _ => .isFalse (fun h => Json.noConfusion h)
  | .bool _, .null => .isFalse (fun h => Json.noConfusion h)
  | .bool a, .bool b =>
      if h : a = b then .isTrue (by rw [h]) else .isFalse (by intro he; injection he; contradiction)
  | .bool _, .num _ => .isFalse (fun h => Json.noConfusion h)
  | .bool _, .str _ => .isFalse (fun h => Json.noConfusion h)
  | .bool _, .arr _ => .isFalse (fun h => Json.noConfusion h)
  | .bool _, .obj _ => .isFalse (fun h => Json.noConfusion h)
  | .num _, .null => .isFalse (fun h => Json.noConfusion h)
  | .num _, .bool _ => .isFalse (fun h => Json.noConfusion h)
  | .num a, .num b =>
      if h : a = b then .isTrue (by rw [h]) else .isFalse (by intro he; injection he; contradiction)
  | .num _, .str _ => .isFalse (fun h => Json.noConfusion h)
  | .num _, .arr _ => .isFalse (fun h => Json.noConfusion h)
  | .num _, .obj _ => .isFalse (fun h => Json.noConfusion h)
  | .str _, .null => .isFalse (fun h => Json.noConfusion h)
  | .str _, .bool _ => .isFalse (fun h => Json.noConfusion h)
  | .str _, .num _ => .isFalse (fun h => Json.noConfusion h)
  | .str a, .str b =>
      if h : a = b then .isTrue (by rw [h]) else .isFalse (by intro he; injection he; contradiction)
  | .str _, .arr _ => .isFalse (fun h => Json.noConfusion h)
  | .str _, .obj _ => .isFalse (fun h => Json.noConfusion h)
  | .arr _, .null => .isFalse (fun h => Json.noConfusion h)
  | .arr _, .bool _ => .isFalse (fun h => Json.noConfusion h)
  | .arr _, .num _ => .isFalse (fun h => Json.noConfusion h)
  | .arr _, .str _ => .isFalse (fun h => Json.noConfusion h)
  | .arr xs, .arr ys =>
      match Json.decEqList xs ys with
      | .isTrue h => .isTrue (by rw [h])
      | .isFalse h => .isFalse (by intro he; injection he; contradiction)
  | .arr _, .obj _ => .isFalse (fun h => Json.noConfusion h)
  | .obj _, .null => .isFalse (fun h => Json.noConfusion h)
  | .obj _, .bool _ => .isFalse (fun h => Json.noConfusion h)
  | .obj _, .num _ => .isFalse (fun h => Json.noConfusion h)
  | .obj _, .str _ => .isFalse (fun h => Json.noConfusion h)
  | .obj _, .arr _ => .isFalse (fun h => Json.noConfusion h)
  | .obj xs, .obj ys =>
      match Json.decEqMembers xs ys with
      | .isTrue h => .isTrue (by rw [h])
      | .isFalse h => .isFalse (by intro he; injection he; contradiction)

def Json.decEqList : (xs ys : List Json) → Decidable (xs = ys)
  | [], [] => .isTrue rfl
  | [], _ :: _ => .isFalse (fun h => List.noConfusion h)
  | _ :: _, [] => .isFalse (fun h => List.noConfusion h)
  | x :: xs, y :: ys =>
      match Json.decEq x y with
      | .isTrue h1 =>
          match Json.decEqList xs ys with
          | .isTrue h2 => .isTrue (by rw [h1, h2])
          | .isFalse h2 => .isFalse (by intro he; injection he; contradiction)
      | .isFalse h1 => .isFalse (by intro he; injection he; contradiction)

def Json.decEqMembers : (xs ys : List (String × Json)) → Decidable (xs = ys)
  | [], [] => .isTrue rfl
  | [], _ :: _ => .isFalse (fun h => List.noConfusion h)
  | _ :: _, [] => .isFalse (fun h => List.noConfusion h)
  | (k1, v1) :: xs, (k2, v2) :: ys =>
      if hk : k1 = k2 then
        match Json.decEq v1 v2 with
        | .isTrue h1 =>
            match Json.decEqMembers xs ys with
            | .isTrue h2 => .isTrue (by rw [hk, h1, h2])
            | .isFalse h2 => .isFalse (by intro he; injection he; contradiction)
        | .isFalse h1 =>
            .isFalse (by intro he; injection he with hhd htl; injection hhd; contradiction)
      else
        .isFalse (by intro he; injection he with hhd htl; injection hhd; contradiction)

end

instance : DecidableEq Json := Json.decEq

/-- Escaping of one character inside a JSON string literal, as produced by
`JSON.stringify` for the characters this code base emits. -/
def jsonEscapeChar (c : Char) : String :=
  if c = '"' then "\\\""
  else if c = '\\' then "\\\\"
  else if c = '\n' then "\\n"
  else if c = '\t' then "\\t"
  else if c = '\r' then "\\r"
  else String.singleton c

def jsonEscape (s : String) : String :=
  String.join (s.data.map jsonEscapeChar)

mutual

/-- Model of `JSON.stringify` on the modelled value space. -/
def Json.stringify : Json → String
  | .null => "null"
  | .bool true => "true"
  | .bool false => "false"
  | .num n => toString n
  | .str s => "\"" ++ jsonEscape s ++ "\""
  | .arr vs => "[" ++ jsonStringifyElems vs ++ "]"
  | .obj ms => "\x7b" ++ jsonStringifyMembers ms ++ "\x7d"

def jsonStringifyElems : List Json → String
  | [] => ""
  | [v] => Json.stringify v
  | v :: rest => Json.stringify v ++ "," ++ jsonStringifyElems rest

def jsonStringifyMembers : List (String × Json) → String
  | [] => ""
  | [(k, v)] => "\"" ++ jsonEscape k ++ "\":" ++ Json.stringify v
  | (k, v) :: rest =>
      "\"" ++ jsonEscape k ++ "\":" ++ Json.stringify v ++ "," ++ jsonStringifyMembers rest

end

def jsonSkipWs : List Char → List Char
  | [] => []
  | c :: rest =>
      if c = ' ' ∨ c = '\n' ∨ c = '\t' ∨ c = '\r' then jsonSkipWs rest else c :: rest

def jsonMatchLit : List Char → List Char → Option (List Char)
  | [], cs => some cs
  | _ :: _, [] => none
  | l :: ls, c :: cs => if c = l then jsonMatchLit ls cs else none

def jsonDigitsAux : List Char → Nat → Nat × List Char
  | [], acc => (acc, [])
  | c :: rest, acc =>
      if c.isDigit then jsonDigitsAux rest (acc * 10 + (c.toNat - 48)) else (acc, c :: rest)

def jsonParseNumber : List Char → Option (Json × List Char)
  | [] => none
  | '-' :: rest =>
      match rest with
      | [] => none
      | c :: _ =>
          if c.isDigit then
            let (n, rest') := jsonDigitsAux rest 0
            some (.num (-(n : Int)), rest')
          else none
  | c :: rest =>
      if c.isDigit then
        let (n, rest') := jsonDigitsAux (c :: rest) 0
        some (.num (n : Int), rest')
      else none

def jsonParseStringBody : Nat → List Char → Option (String × List Char)
  | 0, _ => none
  | _ + 1, [] => none
  | fuel + 1, c :: rest =>
      if c = '"' then some ("", rest)
      else if c = '\\' then
        match rest with
        | [] => none
        | e :: rest2 =>
            let decoded : Option Char :=
              if e = '"' ∨ e = '\\' ∨ e = '/' then some e
              else if e = 'n' then some '\n'
              else if e = 't' then some '\t'
              else if e = 'r' then some '\r'
              else none
            match decoded with
            | none => none
            | some ch =>
                match jsonParseStringBody fuel rest2 with
                | some (s, r) => some (String.singleton ch ++ s, r)
                | none => none
      else
        match jsonParseStringBody fuel rest with
        | some (s, r) => some (String.singleton c ++ s, r)
        | none => none

mutual

def jsonParseValue : Nat → List Char → Option (Json × List Char)
  | 0, _ => none
  | fuel + 1, cs =>
      match jsonSkipWs cs with
      | [] => none
      | c :: rest =>
          if c = '"' then
            match jsonParseStringBody (fuel + 1) rest with
            | some (s, r) => some (.str s, r)
            | none => none
          else if c = '[' then jsonParseArray fuel rest
          else if c = '\x7b' then jsonParseObject fuel rest
          else if c = 't' then (jsonMatchLit ['r', 'u', 'e'] rest).map (fun r => (.bool true, r))
          else if c = 'f' then (jsonMatchLit ['a', 'l', 's', 'e'] rest).map (fun r => (.bool false, r))
          else if c = 'n' then (jsonMatchLit ['u', 'l', 'l'] rest).map (fun r => (.null, r))
          else jsonParseNumber (c :: rest)

def jsonParseArray : Nat → List Char → Option (Json × List Char)
  | 0, _ => none
  | fuel + 1, cs =>
      match jsonSkipWs cs with
      | ']' :: rest => some (.arr [], rest)
      | cs' =>
          match jsonParseValue fuel cs' with
          | some (v, r) =>
              match jsonParseArrayTail fuel r with
              | some (vs, r2) => some (.arr (v :: vs), r2)
              | none => none
          | none => none

def jsonParseArrayTail : Nat → List Char → Option (List Json × List Char)
  | 0, _ => none
  | fuel + 1, cs =>
      match jsonSkipWs cs with
      | ',' :: rest =>
          match jsonParseValue fuel rest with
          | some (v, r) =>
              match jsonParseArrayTail fuel r with
              | some (vs, r2) => some (v :: vs, r2)
              | none => none
          | none => none
      | ']' :: rest => some ([], rest)
      | _ => none

def jsonParseObject : Nat → List Char → Option (Json × List Char)
  | 0, _ => none
  | fuel + 1, cs =>
      match jsonSkipWs cs with
      | '\x7d' :: rest => some (.obj [], rest)
      | cs' =>
          match jsonParseMember fuel cs' with
          | some (kv, r) =>
              match jsonParseObjectTail fuel r with
              | some (kvs, r2) => some (.obj (kv :: kvs), r2)
              | none => none
          | none => none

def jsonParseObjectTail : Nat → List Char → Option (List (String × Json) × List Char)
  | 0, _ => none
  | fuel + 1, cs =>
      match jsonSkipWs cs with
      | ',' :: rest =>
          match jsonParseMember fuel rest with
          | some (kv, r) =>
              match jsonParseObjectTail fuel r with
              | some (kvs, r2) => some (kv :: kvs, r2)
              | none => none
          | none => none
      | '\x7d' :: rest => some ([], rest)
      | _ => none

def jsonParseMember : Nat → List Char → Option ((String × Json) × List Char)
  | 0, _ => none
  | fuel + 1, cs =>
      match jsonSkipWs cs with
      | '"' :: rest =>
          match jsonParseStringBody (fuel + 1) rest with
          | some (k, r) =>
              match jsonSkipWs r with
              | ':' :: r2 =>
                  match jsonParseValue fuel r2 with
                  | some (v, r3) => some ((k, v), r3)
                  | none => none
              | _ => none
          | none => none
      | _ => none

end

/-- Model of `JSON.parse`: `none` where the JavaScript function throws. -/
def Json.parse (s : String) : Option Json :=
  match jsonParseValue (s.length * 2 + 4) s.data with
  | some (j, rest) => if jsonSkipWs rest = [] then some j else none
  | none => none

instance {ε α : Type} [DecidableEq ε] [DecidableEq α] : DecidableEq (Except ε α) := fun a b =>
  match a, b with
  | .ok x, .ok y =>
      if h : x = y then .isTrue (by rw [h])
      else .isFalse (by intro he; injection he; contradiction)
  | .error x, .error y =>
      if h : x = y then .isTrue (by rw [h])
      else .isFalse (by intro he; injection he; contradiction)
  | .ok _, .error _ => .isFalse (fun h => Except.noConfusion h)
  | .error _, .ok _ => .isFalse (fun h => Except.noConfusion h)

/-- Character-level split (structurally recursive so that it computes by
definitional unfolding), with the semantics of JavaScript
`String.prototype.split` for a one-character separator. -/
def splitChars (sep : Char) : List Char → List (List Char)
  | [] => [[]]
  | c :: rest =>
      let groups := splitChars sep rest
      if c = sep then [] :: groups
      else
        match groups with
        | g :: gs => (c :: g) :: gs
        | [] => [[c]]

/-- JavaScript `s.split(sep)` for a one-character separator. -/
def splitString (s : String) (sep : Char) : List String :=
  (splitChars sep s.data).map (fun cs => String.mk cs)

/-! ## Token usage and the usage accumulator (`UsageData.ts`) -/

/-- The `TokenUsage` record from `UsageData.ts` — all non-negative integers. -/
structure TokenUsage where
  inputTokens : Nat
  cachedInputTokens : Nat
  reasoningTokens : Nat
  outputTokens : Nat
  totalTokens : Nat
deriving DecidableEq

def TokenUsage.zero : TokenUsage :=
  { inputTokens := 0, cachedInputTokens := 0, reasoningTokens := 0, outputTokens := 0,
    totalTokens := 0 }

/-- Field-by-field addition of token usage, as written out in
`UsageDataAccumulator.addTokenUsage`. -/
def TokenUsage.add (a b : TokenUsage) : TokenUsage :=
  { inputTokens := a.inputTokens + b.inputTokens,
    cachedInputTokens := a.cachedInputTokens + b.cachedInputTokens,
    reasoningTokens := a.reasoningTokens + b.reasoningTokens,
    outputTokens := a.outputTokens + b.outputTokens,
    totalTokens := a.totalTokens + b.totalTokens }

def lookupAssoc : List (String × Nat) → String → Option Nat
  | [], _ => none
  | (k, v) :: rest, key => if k = key then some v else lookupAssoc rest key

/-- Set a key in a JavaScript-object-style association list: replace in place
when present, append at the end (insertion order) when absent. -/
def setAssoc : List (String × Nat) → String → Nat → List (String × Nat)
  | [], key, value => [(key, value)]
  | (k, v) :: rest, key, value =>
      if k = key then (key, value) :: rest else (k, v) :: setAssoc rest key value

/-- State of `UsageDataAccumulator` (`UsageData.ts`).  The USD cost fields are
floating-point derived data referenced by no claim and are omitted;
`callsPerTool` is the JavaScript object modelled as an insertion-ordered
association list. -/
structure UsageDataAccumulator where
  model : String
  processedInitialRequest : Bool := false
  initialRequestTokenUsage : TokenUsage := TokenUsage.zero
  totalTokenUsage : TokenUsage := TokenUsage.zero
  totalRequestsToAssistant : Nat := 0
  callsPerTool : List (String × Nat) := []
  totalToolCalls : Nat := 0
deriving DecidableEq

/-- The accumulator produced by the `UsageDataAccumulator` constructor. -/
def UsageDataAccumulator.init (model : String) : UsageDataAccumulator :=
  { model := model }

/-- Model of `UsageDataAccumulator.addTokenUsage`: bump the request count, store the
first usage verbatim as the initial-request usage, and add the fields into
the running total. -/
def UsageDataAccumulator.addTokenUsage (acc : UsageDataAccumulator) (tokenUsage : TokenUsage) :
    UsageDataAccumulator :=
  let acc := { acc with totalRequestsToAssistant := acc.totalRequestsToAssistant + 1 }
  let acc :=
    if acc.processedInitialRequest then acc
    else { acc with initialRequestTokenUsage := tokenUsage, processedInitialRequest := true }
  { acc with totalTokenUsage := acc.totalTokenUsage.add tokenUsage }

/-- Model of `UsageDataAccumulator.recordToolCall`: a falsy entry (absent, or `0`) is
first reset to `0`, then the per-tool counter and the global counter are
incremented. -/
def UsageDataAccumulator.recordToolCall (acc : UsageDataAccumulator) (toolName : String) :
    UsageDataAccumulator :=
  let current := (lookupAssoc acc.callsPerTool toolName).getD 0
  { acc with
    callsPerTool := setAssoc acc.callsPerTool toolName (current + 1),
    totalToolCalls := acc.totalToolCalls + 1 }

/-! ## Messages, tools and the invocation ledger (`OpenAi.ts`, `Function.ts`) -/

/-- The `function` payload of a `ChatCompletionMessageToolCall`. -/
structure FunctionCallData where
  name : String
  arguments : String
deriving DecidableEq

/-- A complete `ChatCompletionMessageToolCall`. -/
structure ToolCall where
  id : String
  type : String := "function"
  function : FunctionCallData
deriving DecidableEq

/-- A `ChatCompletionMessageParam`; structured (image) content parts are not
exercised by any claim, so `content` is the text payload or `none` (null). -/
structure ChatMessage where
  role : String
  content : Option String := none
  tool_call_id : Option String := none
  tool_calls : Option (List ToolCall) := none
deriving DecidableEq

/-- Parsed-or-raw tool arguments: `input` of a `ToolInvocationResult` holds
the parsed JSON args, or the raw string when parsing failed. -/
inductive ArgsValue where
  | parsed (value : Json)
  | raw (text : String)
deriving DecidableEq

/-- Return value of a tool: a JSON-serializable value, a
`ChatCompletionMessageParamFactory` (carrying the messages its `create`
resolves to), or `undefined`. -/
inductive ToolReturn where
  | json (value : Json)
  | factory (messageParams : List ChatMessage)
  | undef
deriving DecidableEq

/-- Name part of a `Function`'s `definition`. -/
structure FunctionDefinition where
  name : String
deriving DecidableEq

/-- The `Function` interface of `Function.ts`; `definition` keeps only the
name (the JSON-schema payload is opaque data referenced by no claim), and
`call` is the tool body, `Except.error` modelling a thrown error. -/
structure FunctionTool where
  definition : FunctionDefinition
  call : Json → Except String ToolReturn

/-- The `ToolInvocationResult` record from `OpenAi.ts`, the invocation-ledger record
(`startedAt`/`finishedAt` wall-clock fields omitted; `error` keeps the
captured message). -/
structure ToolInvocationResult where
  id : String
  name : String
  input : ArgsValue
  ok : Bool
  data : Option ToolReturn := none
  error : Option String := none
deriving DecidableEq

/-! ## The blocking tool-invocation loop (`OpenAi.ts`) -/

def DEFAULT_MODEL : String := "gpt-4o"

def DEFAULT_MAX_FUNCTION_CALLS : Nat := 50

def noFunctionsErrorMessage : String :=
  "Assistant attempted to call a function when no functions were provided"

def nonexistentFunctionErrorMessage : String :=
  "Assistant attempted to call nonexistent function"

/-- Model of the `SyntaxError` message raised by `JSON.parse` on bad input. -/
def jsonParseErrorMessage : String := "Unexpected token in JSON"

def noReturnValueContent : String :=
  Json.stringify (.obj [("result", .str "Function with no return value executed successfully")])

/-- Instruction message content emitted before a
`ChatCompletionMessageParamFactory`'s messages (typo as in the source). -/
def factoryInstructionContent : String :=
  "The the return data from this function is provided in the following messages"

namespace OpenAi

/-- Model of `functionCall.name.split('.').pop()`: the call name with any
dotted namespace removed. -/
def shortFunctionName (name : String) : String :=
  (splitString name '.').getLastD name

/-- The lookup performed by `callFunction` after it overwrites
`functionCall.name` with its dotted-suffix: an exact match of the stripped
name only. -/
def resolveFunction (functions : List FunctionTool) (name : String) : Option FunctionTool :=
  functions.find? (fun fx => fx.definition.name == shortFunctionName name)

/-- Tool message synthesized when tools were called with none registered. -/
def noFunctionsMessage (toolCallId : String) : ChatMessage :=
  { role := "tool", tool_call_id := some toolCallId,
    content := some (Json.stringify (.obj [("error", .str noFunctionsErrorMessage)])) }

/-- Tool message synthesized for an unresolved function name. -/
def nonexistentFunctionMessage (name toolCallId : String) : ChatMessage :=
  { role := "tool", tool_call_id := some toolCallId,
    content := some (Json.stringify (.obj
      [("error", .str nonexistentFunctionErrorMessage),
       ("functionName", .str (shortFunctionName name))])) }

/-- Model of `OpenAi.callFunction`.  Returns the accumulator and ledger after the call
(mutations survive a throw) and either the tool messages to append or the
propagated error.  The source strips the dotted namespace from the call name
before its only lookup, records `recordToolCall` after a successful argument
parse and before invoking the tool, and re-raises both argument-parse
errors and tool errors after pushing a failure record. -/
def callFunction (functions : Option (List FunctionTool)) (functionCall : FunctionCallData)
    (toolCallId : String) (acc : UsageDataAccumulator)
    (toolInvocations : List ToolInvocationResult) :
    UsageDataAccumulator × List ToolInvocationResult × Except String (List ChatMessage) :=
  match functions with
  | none =>
      (acc, toolInvocations, .ok [noFunctionsMessage toolCallId])
  | some fs =>
      let strippedName := shortFunctionName functionCall.name
      match resolveFunction fs functionCall.name with
      | none =>
          (acc, toolInvocations, .ok [nonexistentFunctionMessage functionCall.name toolCallId])
      | some f =>
          match Json.parse functionCall.arguments with
          | none =>
              let failureRecord : ToolInvocationResult :=
                { id := toolCallId, name := strippedName,
                  input := .raw functionCall.arguments, ok := false,
                  error := some jsonParseErrorMessage }
              (acc, toolInvocations ++ [failureRecord], .error jsonParseErrorMessage)
          | some parsedArguments =>
              let acc := acc.recordToolCall f.definition.name
              match f.call parsedArguments with
              | .error errorMessage =>
                  let failureRecord : ToolInvocationResult :=
                    { id := toolCallId, name := strippedName,
                      input := .parsed parsedArguments, ok := false,
                      error := some errorMessage }
                  (acc, toolInvocations ++ [failureRecord], .error errorMessage)
              | .ok returnObject =>
                  let successRecord : ToolInvocationResult :=
                    { id := toolCallId, name := f.definition.name,
                      input := .parsed parsedArguments, ok := true,
                      data := some returnObject }
                  let ledger := toolInvocations ++ [successRecord]
                  match returnObject with
                  | .factory messageParams =>
                      (acc, ledger,
                        .ok ({ role := "tool", tool_call_id := some toolCallId,
                               content := some factoryInstructionContent } :: messageParams))
                  | .undef =>
                      (acc, ledger,
                        .ok [{ role := "tool", tool_call_id := some toolCallId,
                               content := some noReturnValueContent }])
                  | .json j =>
                      (acc, ledger,
                        .ok [{ role := "tool", tool_call_id := some toolCallId,
                               content := some (Json.stringify j) }])

/-- Model of `OpenAi.callTools`: the `Promise.all` fan-out embedded left-to-right
(single-threaded event loop); the per-call message lists are concatenated in
call order, as the source's `reduce`/`concat` does. -/
def callTools (functions : Option (List FunctionTool)) (toolCalls : List ToolCall)
    (acc : UsageDataAccumulator) (toolInvocations : List ToolInvocationResult) :
    UsageDataAccumulator × List ToolInvocationResult × Except String (List ChatMessage) :=
  match toolCalls with
  | [] => (acc, toolInvocations, .ok [])
  | toolCall :: rest =>
      match callFunction functions toolCall.function toolCall.id acc toolInvocations with
      | (acc1, ledger1, .error e) => (acc1, ledger1, .error e)
      | (acc1, ledger1, .ok messages) =>
          match callTools functions rest acc1 ledger1 with
          | (acc2, ledger2, .error e) => (acc2, ledger2, .error e)
          | (acc2, ledger2, .ok restMessages) => (acc2, ledger2, .ok (messages ++ restMessages))

/-- Errors that terminate a top-level `generateResponse` call. -/
inductive LoopError where
  | maxFunctionCalls (limit : Nat)
  | emptyResponse
  | toolThrow (message : String)
  | providerExhausted
deriving DecidableEq

/-- One scripted `ChatCompletion` response message: `tool_calls` (checked
first by the source; a present-but-empty array still routes to
`handleToolCalls`) or assistant text content. -/
structure ChatResponseMessage where
  content : Option String := none
  tool_calls : Option (List ToolCall) := none
deriving DecidableEq

/-- One scripted provider response with its optional usage payload. -/
structure ChatResponse where
  message : ChatResponseMessage
  usage : Option TokenUsage := none
deriving DecidableEq

/-- Mutable state threaded through one top-level call: the message history,
the usage accumulator, and the invocation ledger. -/
structure LoopState where
  history : List ChatMessage
  acc : UsageDataAccumulator
  toolInvocations : List ToolInvocationResult
deriving DecidableEq

/-- The `updateMessageHistory` message normalization: strings become `user`
messages. -/
inductive InputMessage where
  | text (s : String)
  | param (m : ChatMessage)
deriving DecidableEq

def normalizeMessage : InputMessage → ChatMessage
  | .text s => { role := "user", content := some s }
  | .param m => m

/-- The assistant message recording a round's tool calls (`handleToolCalls`). -/
def toolCallMessage (toolCalls : List ToolCall) : ChatMessage :=
  { role := "assistant", content := none, tool_calls := some toolCalls }

/-- Model of `OpenAi.generateResponseHelper`, blocking mode, with the provider
transport replaced by the script of responses it would return.  An exhausted
script is the provider being unreachable.  Mutated state (history, usage
accumulator, invocation ledger) is returned alongside the outcome so that
mutations surviving a throw stay observable.  The body of the source's
mutually recursive `handleToolCalls` is inlined at its call site so that the
recursion is structural on the script; `handleToolCalls` below is the same
body as a named definition, and `generateResponseHelper_toolCalls` proves the
call site equal to it. -/
def generateResponseHelper (functions : Option (List FunctionTool)) (maxFunctionCalls : Nat)
    (messages : List InputMessage) (script : List ChatResponse) (st : LoopState)
    (currentFunctionCalls : Nat) : LoopState × Except LoopError String :=
  let st := { st with history := st.history ++ messages.map normalizeMessage }
  match script with
  | [] => (st, .error .providerExhausted)
  | response :: rest =>
      let st :=
        match response.usage with
        | some u => { st with acc := st.acc.addTokenUsage u }
        | none => st
      match response.message.tool_calls with
      | some toolCalls =>
          if currentFunctionCalls ≥ maxFunctionCalls then
            (st, .error (.maxFunctionCalls maxFunctionCalls))
          else
            let st := { st with history := st.history ++ [toolCallMessage toolCalls] }
            match callTools functions toolCalls st.acc st.toolInvocations with
            | (acc', ledger', .error e) =>
                ({ st with acc := acc', toolInvocations := ledger' }, .error (.toolThrow e))
            | (acc', ledger', .ok toolMessageParams) =>
                generateResponseHelper functions maxFunctionCalls [] rest
                  { history := st.history ++ toolMessageParams, acc := acc',
                    toolInvocations := ledger' }
                  (currentFunctionCalls + toolCalls.length)
      | none =>
          match response.message.content with
          | some responseText =>
              if responseText.isEmpty then (st, .error .emptyResponse)
              else
                ({ st with history :=
                     st.history ++ [{ role := "assistant", content := some responseText }] },
                  .ok responseText)
          | none => (st, .error .emptyResponse)
termination_by structural script

/-- Model of `OpenAi.handleToolCalls`: guard on the calls already executed, append the
assistant tool-call message, run the round's tools, append their result
messages, and recurse with the counter advanced by the round's size. -/
def handleToolCalls (functions : Option (List FunctionTool)) (maxFunctionCalls : Nat)
    (toolCalls : List ToolCall) (script : List ChatResponse) (st : LoopState)
    (currentFunctionCalls : Nat) : LoopState × Except LoopError String :=
  if currentFunctionCalls ≥ maxFunctionCalls then
    (st, .error (.maxFunctionCalls maxFunctionCalls))
  else
    let st := { st with history := st.history ++ [toolCallMessage toolCalls] }
    match callTools functions toolCalls st.acc st.toolInvocations with
    | (acc', ledger', .error e) =>
        ({ st with acc := acc', toolInvocations := ledger' }, .error (.toolThrow e))
    | (acc', ledger', .ok toolMessageParams) =>
        generateResponseHelper functions maxFunctionCalls [] script
          { history := st.history ++ toolMessageParams, acc := acc',
            toolInvocations := ledger' }
          (currentFunctionCalls + toolCalls.length)

/-- Model of `OpenAi.generateResponse`: fresh ledger, fresh accumulator, counter 0. -/
def generateResponse (functions : Option (List FunctionTool)) (maxFunctionCalls : Nat)
    (model : String) (messages : List InputMessage) (script : List ChatResponse)
    (history : List ChatMessage) : LoopState × Except LoopError String :=
  generateResponseHelper functions maxFunctionCalls messages script
    { history := history, acc := UsageDataAccumulator.init model, toolInvocations := [] } 0

end OpenAi

/-! ## The Responses-API tool loop (`OpenAiResponses.ts`) -/

def DEFAULT_RESPONSES_MODEL : String := "gpt-5.2"

def DEFAULT_MAX_TOOL_CALLS : Nat := 50

namespace OpenAiResponses

/-- A `function_call` item extracted from a Responses-API response
(`extractFunctionCalls` already filtered items with empty id or name). -/
structure ResponsesFunctionCall where
  call_id : String
  name : String
  arguments : String
deriving DecidableEq

/-- A `function_call_output` item sent back to the provider. -/
structure FunctionCallOutput where
  call_id : String
  output : String
deriving DecidableEq

/-- One scripted completed provider response, modelled after extraction:
`functionCalls` is what `extractFunctionCalls` returns, `outputText` what
`extractAssistantText` returns (`""` when there is none). -/
structure ResponsesResponse where
  id : Option String := some "resp_0"
  functionCalls : List ResponsesFunctionCall := []
  outputText : String := ""
  usage : Option TokenUsage := none
deriving DecidableEq

/-- The two-step lookup of `executeFunctionCall`: exact raw-name match first,
then a match of the dotted-suffix of the registered name against the
dotted-suffix of the call name. -/
def resolveFunction (functions : List FunctionTool) (rawName : String) : Option FunctionTool :=
  let shortName := (splitString rawName '.').getLastD rawName
  (functions.find? (fun fx => fx.definition.name == rawName)).orElse
    (fun _ =>
      functions.find?
        (fun fx => ((splitString fx.definition.name '.').getLastD fx.definition.name) == shortName))

/-- The `parsedArgs` fallback of `executeFunctionCall`: the parsed JSON
arguments, or the raw string when parsing fails. -/
def parsedOrRaw (arguments : String) : ArgsValue :=
  match Json.parse arguments with
  | some j => .parsed j
  | none => .raw arguments

/-- Factory-message normalization inside `formatToolReturn`: keep the role
and the text content of each message whose content is a non-blank string. -/
def normalizeFactoryMessage (m : ChatMessage) : Option Json :=
  match m.content with
  | some c =>
      if c.trim.isEmpty then none
      else some (.obj [("role", .str m.role), ("content", .str c)])
  | none => none

/-- Model of `OpenAiResponses.formatToolReturn`. -/
def formatToolReturn : ToolReturn → String
  | .undef =>
      Json.stringify (.obj
        [("result", .str "Function with no return value executed successfully")])
  | .factory messageParams =>
      Json.stringify (.obj
        [("messages", .arr (messageParams.filterMap normalizeFactoryMessage))])
  | .json j => Json.stringify j

/-- Model of `OpenAiResponses.executeFunctionCall`.  On an argument parse
failure the tool is invoked with an empty object (`argsObj`), which is also
the `input` stored in the success ledger record; the raw-string fallback
(`parsedArgs`) appears only in the unresolved and throw-failure records.
An unresolved tool pushes an `ok: false` ledger record and returns an error
output non-fatally; a throwing tool pushes a failure record and re-raises. -/
def executeFunctionCall (functions : List FunctionTool) (call : ResponsesFunctionCall)
    (acc : UsageDataAccumulator) (toolInvocations : List ToolInvocationResult) :
    UsageDataAccumulator × List ToolInvocationResult × Except String FunctionCallOutput :=
  let shortName := (splitString call.name '.').getLastD call.name
  let parsedArgs : ArgsValue := parsedOrRaw call.arguments
  match resolveFunction functions call.name with
  | none =>
      let failureRecord : ToolInvocationResult :=
        { id := call.call_id, name := shortName, input := parsedArgs, ok := false,
          error := some nonexistentFunctionErrorMessage }
      (acc, toolInvocations ++ [failureRecord],
        .ok { call_id := call.call_id,
              output := Json.stringify (.obj
                [("error", .str nonexistentFunctionErrorMessage),
                 ("functionName", .str shortName)]) })
  | some functionToCall =>
      let argsObj := (Json.parse call.arguments).getD (.obj [])
      let acc := acc.recordToolCall functionToCall.definition.name
      match functionToCall.call argsObj with
      | .ok returnObject =>
          let successRecord : ToolInvocationResult :=
            { id := call.call_id, name := functionToCall.definition.name,
              input := .parsed argsObj, ok := true, data := some returnObject }
          (acc, toolInvocations ++ [successRecord],
            .ok { call_id := call.call_id, output := formatToolReturn returnObject })
      | .error errorMessage =>
          let failureRecord : ToolInvocationResult :=
            { id := call.call_id, name := functionToCall.definition.name,
              input := parsedArgs, ok := false, error := some errorMessage }
          (acc, toolInvocations ++ [failureRecord], .error errorMessage)

/-- Model of `OpenAiResponses.executeFunctionCalls`: a genuinely sequential `for` loop
over the round's calls; a throw stops the loop and propagates. -/
def executeFunctionCalls (functions : List FunctionTool)
    (calls : List ResponsesFunctionCall) (acc : UsageDataAccumulator)
    (toolInvocations : List ToolInvocationResult) :
    UsageDataAccumulator × List ToolInvocationResult × Except String (List FunctionCallOutput) :=
  match calls with
  | [] => (acc, toolInvocations, .ok [])
  | call :: rest =>
      match executeFunctionCall functions call acc toolInvocations with
      | (acc1, ledger1, .error e) => (acc1, ledger1, .error e)
      | (acc1, ledger1, .ok output) =>
          match executeFunctionCalls functions rest acc1 ledger1 with
          | (acc2, ledger2, .error e) => (acc2, ledger2, .error e)
          | (acc2, ledger2, .ok outputs) => (acc2, ledger2, .ok (output :: outputs))

/-- Errors terminating an `OpenAiResponses.run` call. -/
inductive RunError where
  | maxToolCalls (limit : Nat)
  | emptyResponse
  | toolThrow (message : String)
  | missingResponseId
  | providerExhausted
deriving DecidableEq

/-- Model of `addUsageFromResponse` applied to a scripted response. -/
def addResponseUsage (acc : UsageDataAccumulator) (response : ResponsesResponse) :
    UsageDataAccumulator :=
  match response.usage with
  | some u => acc.addTokenUsage u
  | none => acc

/-- The `for (;;)` loop of `OpenAiResponses.run` over scripted completed
responses: add usage, return the assistant text when the response carries no
function calls (empty text is fatal), otherwise enforce
`toolCallsExecuted + calls.length <= maxToolCalls` *before* executing any
tool of the round, execute the round sequentially and continue. -/
def runLoop (functions : List FunctionTool) (maxToolCalls : Nat)
    (script : List ResponsesResponse) (acc : UsageDataAccumulator)
    (toolInvocations : List ToolInvocationResult) (toolCallsExecuted : Nat) :
    (UsageDataAccumulator × List ToolInvocationResult) × Except RunError String :=
  match script with
  | [] => ((acc, toolInvocations), .error .providerExhausted)
  | response :: rest =>
      let acc := addResponseUsage acc response
      let functionCalls := response.functionCalls
      if functionCalls.length < 1 then
        if response.outputText.isEmpty then ((acc, toolInvocations), .error .emptyResponse)
        else ((acc, toolInvocations), .ok response.outputText)
      else if toolCallsExecuted + functionCalls.length > maxToolCalls then
        ((acc, toolInvocations), .error (.maxToolCalls maxToolCalls))
      else
        match response.id with
        | none => ((acc, toolInvocations), .error .missingResponseId)
        | some _ =>
            match executeFunctionCalls functions functionCalls acc toolInvocations with
            | (acc', ledger', .error e) => ((acc', ledger'), .error (.toolThrow e))
            | (acc', ledger', .ok _outputs) =>
                runLoop functions maxToolCalls rest acc' ledger'
                  (toolCallsExecuted + functionCalls.length)

/-- Model of `OpenAiResponses.run`: fresh accumulator (model pinned to
`DEFAULT_MODEL`), fresh ledger, executed counter 0. -/
def run (functions : List FunctionTool) (maxToolCalls : Nat)
    (script : List ResponsesResponse) :
    (UsageDataAccumulator × List ToolInvocationResult) × Except RunError String :=
  runLoop functions maxToolCalls script (UsageDataAccumulator.init DEFAULT_MODEL) [] 0

end OpenAiResponses

/-! ## The streaming chunk reassembler (`OpenAiStreamProcessor`) -/

namespace OpenAiStreamProcessor

/-- JavaScript truthiness of an optional string (absent, null and `""` are
falsy). -/
def truthy : Option String → Bool
  | some s => !s.isEmpty
  | none => false

/-- JavaScript `x || dflt` on an optional string. -/
def orDefault (o : Option String) (dflt : String) : String :=
  match o with
  | some s => if s.isEmpty then dflt else s
  | none => dflt

/-- An in-progress `ChatCompletionMessageToolCall` being accumulated (the
source's `Partial` values are always constructed with every field set). -/
structure PartialToolCall where
  id : String
  type : String
  name : String
  arguments : String
deriving DecidableEq

/-- The `function` fragment of one tool-call delta. -/
structure DeltaFunctionFragment where
  name : Option String := none
  arguments : Option String := none
deriving DecidableEq

/-- One `ChatCompletionChunk.Choice.Delta.ToolCall`. -/
structure ToolCallDelta where
  id : Option String := none
  type : Option String := none
  function : Option DeltaFunctionFragment := none
deriving DecidableEq

/-- Reassembly state: `accumulatedToolCalls` and `currentToolCall` of
`OpenAiStreamProcessor`. -/
structure StreamAssemblyState where
  accumulatedToolCalls : List PartialToolCall := []
  currentToolCall : Option PartialToolCall := none
deriving DecidableEq

/-- The continuation update of `handleToolCallDelta` for a delta without an
id: append truthy name/argument fragments onto a call. -/
def applyFragment (c : PartialToolCall) (fr : DeltaFunctionFragment) : PartialToolCall :=
  let c1 := if truthy fr.name then { c with name := c.name ++ fr.name.getD "" } else c
  if truthy fr.arguments then { c1 with arguments := c1.arguments ++ fr.arguments.getD "" }
  else c1

/-- One iteration of the `for` loop in `handleToolCallDelta`.  A delta with a
truthy id flushes the current call and starts a new one; a delta without one
appends onto the current call — `none` is the `TypeError` the source's
non-null assertion raises when there is no current call. -/
def applyToolCallDelta (st : StreamAssemblyState) (delta : ToolCallDelta) :
    Option StreamAssemblyState :=
  if truthy delta.id then
    let flushed :=
      match st.currentToolCall with
      | some c => st.accumulatedToolCalls ++ [c]
      | none => st.accumulatedToolCalls
    some { accumulatedToolCalls := flushed,
           currentToolCall := some
             { id := delta.id.getD "",
               type := orDefault delta.type "function",
               name := orDefault (delta.function.bind (fun f => f.name)) "",
               arguments := orDefault (delta.function.bind (fun f => f.arguments)) "" } }
  else
    let fr : DeltaFunctionFragment :=
      { name := delta.function.bind (fun f => f.name),
        arguments := delta.function.bind (fun f => f.arguments) }
    if truthy fr.name || truthy fr.arguments then
      match st.currentToolCall with
      | none => none
      | some c => some { st with currentToolCall := some (applyFragment c fr) }
    else some st

/-- Model of `handleToolCallDelta` over the chunk's list of deltas. -/
def handleToolCallDelta (st : StreamAssemblyState) (deltas : List ToolCallDelta) :
    Option StreamAssemblyState :=
  deltas.foldlM applyToolCallDelta st

/-- Prologue of the processor's `handleToolCalls`: flush `currentToolCall`
into `accumulatedToolCalls`.  (The subsequent completeness filter keeps every
call, since every accumulated call is constructed with all fields set.) -/
def flushToolCalls (st : StreamAssemblyState) : List PartialToolCall :=
  match st.currentToolCall with
  | some c => st.accumulatedToolCalls ++ [c]
  | none => st.accumulatedToolCalls

/-- End-to-end reassembly of one round's tool-call deltas: run
`handleToolCallDelta` from the fresh state, then flush. -/
def reassembleToolCalls (deltas : List ToolCallDelta) : Option (List PartialToolCall) :=
  (handleToolCallDelta {} deltas).map flushToolCalls

/-- Delta payload of one streamed choice. -/
structure ChunkDelta where
  content : Option String := none
  tool_calls : Option (List ToolCallDelta) := none
deriving DecidableEq

/-- One choice of a `ChatCompletionChunk`. -/
structure ChunkChoice where
  delta : ChunkDelta := {}
  finish_reason : Option String := none
deriving DecidableEq

/-- A `ChatCompletionChunk`; `choices := none` is the malformed chunk
(`!chunk || !chunk.choices`) that the transform treats as fatal. -/
structure ChatCompletionChunk where
  choices : Option (List ChunkChoice) := some []
  usage : Option TokenUsage := none
deriving DecidableEq

/-- Control-stream state: the two closure/instance flags and the reassembly
state (the usage accumulator is delegated to through effects below). -/
structure ControlState where
  finishedProcessingToolCallStream : Bool := false
  outputStreamTerminated : Bool := false
  asm : StreamAssemblyState := {}
deriving DecidableEq

/-- Objects pushed onto the output stream (`push(null)` is `endOfStream`). -/
inductive OutputEvent where
  | content (s : String)
  | finishReason (r : String)
  | endOfStream
deriving DecidableEq

/-- Side effects the transform delegates out of the pure step: adding usage
(optionally followed by flushing tool calls to the loop, or by delivering
usage and tearing down), destroying streams on error, or the early teardown
when the consumer already destroyed the output stream. -/
inductive ControlEffect where
  | noEffect
  | addUsage (u : TokenUsage)
  | addUsageThenRunToolCalls (u : TokenUsage)
  | addUsageThenDeliverUsage (u : TokenUsage)
  | destroyStreamsWithError
  | destroyInputStreams
deriving DecidableEq

/-- The `transform` callback of `createControlStream` for one chunk: the
if/else chain over destroyed output, malformed chunk, content delta,
tool-call deltas, the four finish reasons, and the usage summary. -/
def transformChunk (outputDestroyed : Bool) (st : ControlState)
    (chunk : ChatCompletionChunk) : ControlState × List OutputEvent × ControlEffect :=
  if outputDestroyed then (st, [], .destroyInputStreams)
  else
    match chunk.choices with
    | none => (st, [], .destroyStreamsWithError)
    | some choices =>
        let choice0 := choices.head?
        let deltaContent := choice0.bind (fun c => c.delta.content)
        if truthy deltaContent then (st, [.content (deltaContent.getD "")], .noEffect)
        else
          match choice0.bind (fun c => c.delta.tool_calls) with
          | some deltas =>
              match handleToolCallDelta st.asm deltas with
              | some asm' => ({ st with asm := asm' }, [], .noEffect)
              | none => (st, [], .destroyStreamsWithError)
          | none =>
              match choice0.bind (fun c => c.finish_reason) with
              | some "tool_calls" =>
                  ({ st with finishedProcessingToolCallStream := true }, [], .noEffect)
              | some "stop" =>
                  ({ st with outputStreamTerminated := true },
                    [.finishReason "stop", .endOfStream], .noEffect)
              | some "length" =>
                  ({ st with outputStreamTerminated := true },
                    [.finishReason "length", .endOfStream], .noEffect)
              | some "content_filter" =>
                  ({ st with outputStreamTerminated := true },
                    [.finishReason "content_filter", .endOfStream], .noEffect)
              | _ =>
                  match chunk.usage with
                  | some u =>
                      if st.finishedProcessingToolCallStream then
                        (st, [], .addUsageThenRunToolCalls u)
                      else if st.outputStreamTerminated then
                        (st, [], .addUsageThenDeliverUsage u)
                      else (st, [], .addUsage u)
                  | none => (st, [], .noEffect)

end OpenAiStreamProcessor

/-! ## Derived definitions used by the theorems -/

/-- Sum of the per-tool counters of `callsPerTool`. -/
def callsPerToolSum : List (String × Nat) → Nat
  | [] => 0
  | (_, v) :: rest => v + callsPerToolSum rest

/-- A sequence of `addTokenUsage` calls on one accumulator instance. -/
def applyTokenUsages (acc : UsageDataAccumulator) (us : List TokenUsage) :
    UsageDataAccumulator :=
  us.foldl UsageDataAccumulator.addTokenUsage acc

/-- Field-by-field sum of a sequence of token usages. -/
def sumTokenUsages (us : List TokenUsage) : TokenUsage :=
  us.foldl TokenUsage.add TokenUsage.zero

/-- An operation on the accumulator: a provider usage report or a tool call. -/
inductive AccumulatorOp where
  | addUsage (u : TokenUsage)
  | recordCall (name : String)

def applyAccumulatorOp (acc : UsageDataAccumulator) : AccumulatorOp → UsageDataAccumulator
  | .addUsage u => acc.addTokenUsage u
  | .recordCall name => acc.recordToolCall name

def applyAccumulatorOps (acc : UsageDataAccumulator) (ops : List AccumulatorOp) :
    UsageDataAccumulator :=
  ops.foldl applyAccumulatorOp acc


/-! ## Contiguous delta groups (for the reassembler theorems) -/

namespace OpenAiStreamProcessor

/-- A contiguously streamed tool call: its id-introducing delta (id, optional
type and initial name/argument fragments) followed by its continuation
fragments. -/
structure DeltaGroup where
  id : String
  type : Option String := none
  initialName : Option String := none
  initialArguments : Option String := none
  contFragments : List DeltaFunctionFragment := []
deriving DecidableEq

/-- The delta that introduces the group's call id. -/
def DeltaGroup.idDelta (g : DeltaGroup) : ToolCallDelta :=
  { id := some g.id, type := g.type,
    function := some { name := g.initialName, arguments := g.initialArguments } }

/-- A continuation delta: no id, only name/argument fragments. -/
def fragmentDelta (fr : DeltaFunctionFragment) : ToolCallDelta :=
  { id := none, type := none, function := some fr }

/-- The fragment stream of one contiguously delivered call. -/
def DeltaGroup.toDeltas (g : DeltaGroup) : List ToolCallDelta :=
  g.idDelta :: g.contFragments.map fragmentDelta

/-- The call as started by the id delta. -/
def DeltaGroup.initialCall (g : DeltaGroup) : PartialToolCall :=
  { id := g.id, type := orDefault g.type "function",
    name := orDefault g.initialName "", arguments := orDefault g.initialArguments "" }

/-- The fully reconstructed call: initial fragments extended by every truthy
continuation fragment in order. -/
def DeltaGroup.reconstruct (g : DeltaGroup) : PartialToolCall :=
  g.contFragments.foldl applyFragment g.initialCall

end OpenAiStreamProcessor

/-! ## Concrete fixtures for witnesses and counterexamples -/

/-- A tool that returns its parsed arguments. -/
def echoTool : FunctionTool :=
  { definition := { name := "echo" }, call := fun j => .ok (.json j) }

/-- A tool registered under a dotted qualified name. -/
def qualifiedTool : FunctionTool :=
  { definition := { name := "ns.foo" }, call := fun _ => .ok .undef }

/-- A tool whose invocation throws. -/
def boomTool : FunctionTool :=
  { definition := { name := "boom" }, call := fun _ => .error "kaboom" }

/-- A tool returning the example payload of the round-trip property. -/
def readFileTool : FunctionTool :=
  { definition := { name := "readFile" },
    call := fun _ => .ok (.json (.obj [("content", .str "hi")])) }

def demoAccumulator : UsageDataAccumulator := UsageDataAccumulator.init DEFAULT_MODEL

def demoState : OpenAi.LoopState :=
  { history := [], acc := demoAccumulator, toolInvocations := [] }

/-- A tool call of `echoTool` with empty-object arguments. -/
def echoCall (i : String) : ToolCall :=
  { id := i, function := { name := "echo", arguments := "\x7b\x7d" } }

/-- A round of two `echo` calls followed by a plain text response. -/
def demoOvershootRound : OpenAi.ChatResponse :=
  { message := { tool_calls := some [echoCall "call_1", echoCall "call_2"] } }

def demoDoneResponse : OpenAi.ChatResponse :=
  { message := { content := some "done" } }

/-- A Responses-API round carrying one `echo` call. -/
def demoResponsesRound : OpenAiResponses.ResponsesResponse :=
  { functionCalls := [{ call_id := "call_1", name := "echo", arguments := "\x7b\x7d" }] }

/-- A tool call of `boomTool` with empty-object arguments. -/
def boomCall : ToolCall :=
  { id := "call_9", function := { name := "boom", arguments := "\x7b\x7d" } }

/-- The round-trip example call: `readFile` with arguments
`'\x7b"path":"a.txt"\x7d'`. -/
def readFileCallData : FunctionCallData :=
  { name := "readFile", arguments := "\x7b\"path\":\"a.txt\"\x7d" }

/-- The interleaved delta sequence of the overlapping-calls scenario: call A's
id delta, call B's id delta, a later argument delta of A, a later argument
delta of B. -/
def interleavedDeltas : List OpenAiStreamProcessor.ToolCallDelta :=
  [{ id := some "call_A", function := some { name := some "toolA", arguments := some "a1" } },
   { id := some "call_B", function := some { name := some "toolB", arguments := some "b1" } },
   { function := some { arguments := some "a2" } },
   { function := some { arguments := some "b2" } }]

/-- The two delta groups of the same scenario streamed contiguously. -/
def contiguousGroups : List OpenAiStreamProcessor.DeltaGroup :=
  [{ id := "call_A", initialName := some "toolA", initialArguments := some "a1",
     contFragments := [{ arguments := some "a2" }] },
   { id := "call_B", initialName := some "toolB", initialArguments := some "b1",
     contFragments := [{ arguments := some "b2" }] }]

/-! # Theorems

Helper lemmas first, then the claim theorems with their witnesses and
counterexamples. -/

/-! ## Accumulator lemmas and the usage claims -/

theorem callsPerToolSum_setAssoc (l : List (String × Nat)) (k : String) :
    callsPerToolSum (setAssoc l k ((lookupAssoc l k).getD 0 + 1)) = callsPerToolSum l + 1 := by
  induction l with
  | nil => simp [setAssoc, lookupAssoc, callsPerToolSum]
  | cons hd rest ih =>
      obtain ⟨k', v'⟩ := hd
      by_cases h : k' = k
      · simp [setAssoc, lookupAssoc, h, callsPerToolSum]
        omega
      · simp only [setAssoc, lookupAssoc, if_neg h, callsPerToolSum]
        omega

theorem recordToolCall_totalToolCalls (acc : UsageDataAccumulator) (name : String) :
    (acc.recordToolCall name).totalToolCalls = acc.totalToolCalls + 1 := rfl

theorem recordToolCall_callsPerToolSum (acc : UsageDataAccumulator) (name : String) :
    callsPerToolSum (acc.recordToolCall name).callsPerTool =
      callsPerToolSum acc.callsPerTool + 1 :=
  callsPerToolSum_setAssoc acc.callsPerTool name

theorem addTokenUsage_callsPerTool (acc : UsageDataAccumulator) (u : TokenUsage) :
    (acc.addTokenUsage u).callsPerTool = acc.callsPerTool := by
  unfold UsageDataAccumulator.addTokenUsage
  cases h : acc.processedInitialRequest <;> simp [h]

theorem addTokenUsage_totalToolCalls (acc : UsageDataAccumulator) (u : TokenUsage) :
    (acc.addTokenUsage u).totalToolCalls = acc.totalToolCalls := by
  unfold UsageDataAccumulator.addTokenUsage
  cases h : acc.processedInitialRequest <;> simp [h]

theorem addTokenUsage_processed (acc : UsageDataAccumulator) (u : TokenUsage) :
    (acc.addTokenUsage u).processedInitialRequest = true := by
  unfold UsageDataAccumulator.addTokenUsage
  cases h : acc.processedInitialRequest <;> simp [h]

theorem addTokenUsage_initial_of_processed (acc : UsageDataAccumulator) (u : TokenUsage)
    (h : acc.processedInitialRequest = true) :
    (acc.addTokenUsage u).initialRequestTokenUsage = acc.initialRequestTokenUsage := by
  unfold UsageDataAccumulator.addTokenUsage
  simp [h]

theorem addTokenUsage_initial_of_first (acc : UsageDataAccumulator) (u : TokenUsage)
    (h : acc.processedInitialRequest = false) :
    (acc.addTokenUsage u).initialRequestTokenUsage = u := by
  unfold UsageDataAccumulator.addTokenUsage
  simp [h]

theorem addTokenUsage_total (acc : UsageDataAccumulator) (u : TokenUsage) :
    (acc.addTokenUsage u).totalTokenUsage = acc.totalTokenUsage.add u := by
  unfold UsageDataAccumulator.addTokenUsage
  cases h : acc.processedInitialRequest <;> simp [h]

theorem addTokenUsage_requests (acc : UsageDataAccumulator) (u : TokenUsage) :
    (acc.addTokenUsage u).totalRequestsToAssistant = acc.totalRequestsToAssistant + 1 := by
  unfold UsageDataAccumulator.addTokenUsage
  cases h : acc.processedInitialRequest <;> simp [h]

theorem applyTokenUsages_initial_frozen :
    ∀ (us : List TokenUsage) (acc : UsageDataAccumulator),
      acc.processedInitialRequest = true →
      (applyTokenUsages acc us).initialRequestTokenUsage = acc.initialRequestTokenUsage := by
  intro us
  induction us with
  | nil => intro acc _; rfl
  | cons u rest ih =>
      intro acc h
      show (applyTokenUsages (acc.addTokenUsage u) rest).initialRequestTokenUsage = _
      rw [ih _ (addTokenUsage_processed acc u), addTokenUsage_initial_of_processed acc u h]

theorem applyTokenUsages_total :
    ∀ (us : List TokenUsage) (acc : UsageDataAccumulator),
      (applyTokenUsages acc us).totalTokenUsage =
        us.foldl TokenUsage.add acc.totalTokenUsage := by
  intro us
  induction us with
  | nil => intro acc; rfl
  | cons u rest ih =>
      intro acc
      show (applyTokenUsages (acc.addTokenUsage u) rest).totalTokenUsage = _
      rw [ih, addTokenUsage_total]
      rfl

theorem applyTokenUsages_requests :
    ∀ (us : List TokenUsage) (acc : UsageDataAccumulator),
      (applyTokenUsages acc us).totalRequestsToAssistant =
        acc.totalRequestsToAssistant + us.length := by
  intro us
  induction us with
  | nil => intro acc; rfl
  | cons u rest ih =>
      intro acc
      show (applyTokenUsages (acc.addTokenUsage u) rest).totalRequestsToAssistant = _
      rw [ih, addTokenUsage_requests]
      simp
      omega

/-- C7: on a fresh accumulator, the first `addTokenUsage` call stores its
token usage verbatim as the initial-request usage and no later call changes
it; every call adds its fields into the total usage field-by-field and
increments the request count — so after any sequence of calls the total is
the field-wise sum of all the usages and the request count is their number. -/
theorem usage_initial_and_totals (model : String) (u : TokenUsage) (rest : List TokenUsage) :
    (applyTokenUsages (UsageDataAccumulator.init model) (u :: rest)).initialRequestTokenUsage
        = u ∧
    (applyTokenUsages (UsageDataAccumulator.init model) (u :: rest)).totalTokenUsage
        = sumTokenUsages (u :: rest) ∧
    (applyTokenUsages (UsageDataAccumulator.init model) (u :: rest)).totalRequestsToAssistant
        = (u :: rest).length := by
  have hstep : applyTokenUsages (UsageDataAccumulator.init model) (u :: rest)
      = applyTokenUsages ((UsageDataAccumulator.init model).addTokenUsage u) rest := rfl
  refine ⟨?_, ?_, ?_⟩
  · rw [hstep, applyTokenUsages_initial_frozen rest _ (addTokenUsage_processed _ u),
      addTokenUsage_initial_of_first _ u rfl]
  · rw [hstep, applyTokenUsages_total]
    rw [addTokenUsage_total]
    rfl
  · rw [hstep, applyTokenUsages_requests, addTokenUsage_requests]
    show 0 + 1 + rest.length = rest.length + 1
    omega

theorem applyAccumulatorOps_sum_invariant :
    ∀ (ops : List AccumulatorOp) (acc : UsageDataAccumulator),
      acc.totalToolCalls = callsPerToolSum acc.callsPerTool →
      (applyAccumulatorOps acc ops).totalToolCalls =
        callsPerToolSum (applyAccumulatorOps acc ops).callsPerTool := by
  intro ops
  induction ops with
  | nil => intro acc h; exact h
  | cons op rest ih =>
      intro acc h
      show (applyAccumulatorOps (applyAccumulatorOp acc op) rest).totalToolCalls = _
      apply ih
      cases op with
      | addUsage u =>
          simp only [applyAccumulatorOp]
          rw [addTokenUsage_totalToolCalls, addTokenUsage_callsPerTool, h]
      | recordCall name =>
          simp only [applyAccumulatorOp]
          rw [recordToolCall_totalToolCalls, recordToolCall_callsPerToolSum, h]

/-- C8: for every accumulator instance and every interleaving of
`recordToolCall` and `addTokenUsage` operations, `totalToolCalls` equals the
sum of the `callsPerTool` counters. -/
theorem usage_toolCallSum_invariant (model : String) (ops : List AccumulatorOp) :
    (applyAccumulatorOps (UsageDataAccumulator.init model) ops).totalToolCalls =
      callsPerToolSum (applyAccumulatorOps (UsageDataAccumulator.init model) ops).callsPerTool :=
  applyAccumulatorOps_sum_invariant ops _ rfl

/-- The inlined tool-call branch of `generateResponseHelper` is exactly
`handleToolCalls` applied to the usage-updated, history-extended state. -/
theorem generateResponseHelper_toolCalls (functions : Option (List FunctionTool))
    (maxFunctionCalls : Nat) (messages : List OpenAi.InputMessage) (content : Option String)
    (toolCalls : List ToolCall) (usage : Option TokenUsage)
    (rest : List OpenAi.ChatResponse) (st : OpenAi.LoopState) (current : Nat) :
    OpenAi.generateResponseHelper functions maxFunctionCalls messages
        ({ message := { content := content, tool_calls := some toolCalls },
           usage := usage } :: rest) st current =
      OpenAi.handleToolCalls functions maxFunctionCalls toolCalls rest
        (let st1 : OpenAi.LoopState :=
          { st with history := st.history ++ messages.map OpenAi.normalizeMessage }
         match usage with
         | some u => { st1 with acc := st1.acc.addTokenUsage u }
         | none => st1) current := by
  cases usage <;> rfl

/-! ## C1 — the tool-call cap -/

/-- C1 counterexample: with `maxFunctionCalls = 1`, an executed count of `0`
and a first round of two tool calls (`0 + 2 > 1`), the claim demands the
max-tool-calls failure before any tool executes; `OpenAi.handleToolCalls`
instead lets the round through (its guard is `currentFunctionCalls >=
maxFunctionCalls`), executes both tools and finishes normally. -/
theorem toolCallCap_counterexample :
    (OpenAi.generateResponseHelper (some [echoTool]) 1 []
        [demoOvershootRound, demoDoneResponse] demoState 0).2 = .ok "done" ∧
    (OpenAi.generateResponseHelper (some [echoTool]) 1 []
        [demoOvershootRound, demoDoneResponse] demoState 0).1.acc.totalToolCalls = 2 ∧
    (OpenAi.generateResponseHelper (some [echoTool]) 1 []
        [demoOvershootRound, demoDoneResponse] demoState 0).2 ≠
      .error (.maxFunctionCalls 1) := by
  refine ⟨rfl, rfl, ?_⟩
  decide

/-- C1 (amended): `OpenAiResponses.run` enforces the claimed bound — a round
with `executed + calls.length > maxToolCalls` fails with the max-tool-calls
error before any tool of the round executes (ledger untouched, only the
response usage added).  `OpenAi.handleToolCalls` instead fails a round (also
before any tool executes, state untouched) exactly when the calls already
executed have reached `maxFunctionCalls`; the size of the pending round is
not considered. -/
theorem toolCallCap_amended :
    (∀ (functions : List FunctionTool) (maxToolCalls : Nat)
        (response : OpenAiResponses.ResponsesResponse)
        (rest : List OpenAiResponses.ResponsesResponse)
        (acc : UsageDataAccumulator) (ledger : List ToolInvocationResult) (executed : Nat),
        1 ≤ response.functionCalls.length →
        executed + response.functionCalls.length > maxToolCalls →
        OpenAiResponses.runLoop functions maxToolCalls (response :: rest) acc ledger executed =
          ((OpenAiResponses.addResponseUsage acc response, ledger),
            .error (.maxToolCalls maxToolCalls))) ∧
    (∀ (functions : Option (List FunctionTool)) (maxFunctionCalls : Nat)
        (toolCalls : List ToolCall) (script : List OpenAi.ChatResponse)
        (st : OpenAi.LoopState) (current : Nat),
        current ≥ maxFunctionCalls →
        OpenAi.handleToolCalls functions maxFunctionCalls toolCalls script st current =
          (st, .error (.maxFunctionCalls maxFunctionCalls))) := by
  constructor
  · intro functions maxToolCalls response rest acc ledger executed h1 h2
    simp only [OpenAiResponses.runLoop]
    rw [if_neg (by omega), if_pos h2]
  · intro functions maxFunctionCalls toolCalls script st current h
    rw [OpenAi.handleToolCalls]
    rw [if_pos h]

/-- C1 witness: both cap checks fire at concrete inputs. -/
theorem toolCallCap_amended_witness :
    OpenAiResponses.runLoop [] 0 [demoResponsesRound] demoAccumulator [] 0 =
      ((OpenAiResponses.addResponseUsage demoAccumulator demoResponsesRound, []),
        .error (.maxToolCalls 0)) ∧
    OpenAi.handleToolCalls (some []) 0 [] [] demoState 0 =
      (demoState, .error (.maxFunctionCalls 0)) :=
  ⟨toolCallCap_amended.1 [] 0 demoResponsesRound [] demoAccumulator [] 0 (by decide) (by decide),
   toolCallCap_amended.2 (some []) 0 [] [] demoState 0 (by decide)⟩

/-! ## C5 — a throwing tool is recorded and fatal -/

/-- C5: when a resolved tool's `invoke` throws, `callFunction` appends a
ledger record with `ok := false` and the captured message and re-raises; and
`handleToolCalls` turns any throw out of the round's tool execution into
termination of the top-level call with that error — the result does not
depend on the remaining provider script, so no further round executes. -/
theorem toolThrow_recorded_fatal :
    (∀ (fs : List FunctionTool) (functionCall : FunctionCallData) (toolCallId : String)
        (acc : UsageDataAccumulator) (ledger : List ToolInvocationResult)
        (f : FunctionTool) (args : Json) (e : String),
        OpenAi.resolveFunction fs functionCall.name = some f →
        Json.parse functionCall.arguments = some args →
        f.call args = .error e →
        OpenAi.callFunction (some fs) functionCall toolCallId acc ledger =
          (acc.recordToolCall f.definition.name,
            ledger ++ [{ id := toolCallId, name := OpenAi.shortFunctionName functionCall.name,
                         input := .parsed args, ok := false, error := some e }],
            .error e)) ∧
    (∀ (functions : Option (List FunctionTool)) (maxFunctionCalls : Nat)
        (toolCalls : List ToolCall) (script : List OpenAi.ChatResponse)
        (st : OpenAi.LoopState) (current : Nat) (acc' : UsageDataAccumulator)
        (ledger' : List ToolInvocationResult) (e : String),
        current < maxFunctionCalls →
        OpenAi.callTools functions toolCalls st.acc st.toolInvocations =
          (acc', ledger', .error e) →
        OpenAi.handleToolCalls functions maxFunctionCalls toolCalls script st current =
          ({ st with history := st.history ++ [OpenAi.toolCallMessage toolCalls],
                     acc := acc', toolInvocations := ledger' },
            .error (.toolThrow e))) := by
  constructor
  · intro fs functionCall toolCallId acc ledger f args e hresolve hparse hcall
    simp only [OpenAi.callFunction, hresolve, hparse, hcall]
  · intro functions maxFunctionCalls toolCalls script st current acc' ledger' e hlt hct
    simp only [OpenAi.handleToolCalls]
    rw [if_neg (by omega)]
    simp only [hct]

/-- C5 witness: `boomTool` throwing `"kaboom"` is recorded with `ok := false`
and terminates the round regardless of the remaining script. -/
theorem toolThrow_recorded_fatal_witness :
    OpenAi.callFunction (some [boomTool]) boomCall.function boomCall.id demoAccumulator [] =
      (demoAccumulator.recordToolCall "boom",
        [{ id := "call_9", name := OpenAi.shortFunctionName "boom",
           input := .parsed (.obj []), ok := false, error := some "kaboom" }],
        .error "kaboom") ∧
    OpenAi.handleToolCalls (some [boomTool]) 50 [boomCall] [demoDoneResponse] demoState 0 =
      ({ demoState with
           history := demoState.history ++ [OpenAi.toolCallMessage [boomCall]],
           acc := demoAccumulator.recordToolCall "boom",
           toolInvocations :=
             [{ id := "call_9", name := OpenAi.shortFunctionName "boom",
                input := .parsed (.obj []), ok := false, error := some "kaboom" }] },
        .error (.toolThrow "kaboom")) :=
  ⟨toolThrow_recorded_fatal.1 [boomTool] boomCall.function boomCall.id demoAccumulator []
      boomTool (.obj []) "kaboom" rfl rfl rfl,
   toolThrow_recorded_fatal.2 (some [boomTool]) 50 [boomCall] [demoDoneResponse] demoState 0
      (demoAccumulator.recordToolCall "boom")
      [{ id := "call_9", name := OpenAi.shortFunctionName "boom",
         input := .parsed (.obj []), ok := false, error := some "kaboom" }]
      "kaboom" (by omega) rfl⟩

/-! ## C9 — serialization round trip -/

/-- C9: for a tool call with valid-JSON arguments whose resolved tool returns
a JSON-serializable value, the resulting tool message content is exactly the
JSON serialization of the tool's return value. -/
theorem toolReturn_serialization :
    ∀ (fs : List FunctionTool) (functionCall : FunctionCallData) (toolCallId : String)
      (acc : UsageDataAccumulator) (ledger : List ToolInvocationResult)
      (f : FunctionTool) (args j : Json),
      OpenAi.resolveFunction fs functionCall.name = some f →
      Json.parse functionCall.arguments = some args →
      f.call args = .ok (.json j) →
      OpenAi.callFunction (some fs) functionCall toolCallId acc ledger =
        (acc.recordToolCall f.definition.name,
          ledger ++ [{ id := toolCallId, name := f.definition.name, input := .parsed args,
                       ok := true, data := some (.json j) }],
          .ok [{ role := "tool", tool_call_id := some toolCallId,
                 content := some (Json.stringify j) }]) := by
  intro fs functionCall toolCallId acc ledger f args j hresolve hparse hcall
  simp only [OpenAi.callFunction, hresolve, hparse, hcall]

/-- C9 witness, the example of the claim: arguments
`'\x7b"path":"a.txt"\x7d'` parse to the object `\x7bpath: "a.txt"\x7d`, the
tool returns `\x7bcontent: "hi"\x7d`, and the tool message content is exactly
`'\x7b"content":"hi"\x7d'`. -/
theorem toolReturn_serialization_witness :
    Json.parse readFileCallData.arguments = some (.obj [("path", .str "a.txt")]) ∧
    Json.stringify (.obj [("content", .str "hi")]) = "\x7b\"content\":\"hi\"\x7d" ∧
    OpenAi.callFunction (some [readFileTool]) readFileCallData "call_1" demoAccumulator [] =
      (demoAccumulator.recordToolCall "readFile",
        [{ id := "call_1", name := "readFile",
           input := .parsed (.obj [("path", .str "a.txt")]), ok := true,
           data := some (.json (.obj [("content", .str "hi")])) }],
        .ok [{ role := "tool", tool_call_id := some "call_1",
               content := some "\x7b\"content\":\"hi\"\x7d" }]) :=
  ⟨rfl, rfl,
   toolReturn_serialization [readFileTool] readFileCallData "call_1" demoAccumulator []
     readFileTool (.obj [("path", .str "a.txt")]) (.obj [("content", .str "hi")]) rfl rfl rfl⟩

/-! ## Unresolved-call lemmas -/

theorem callFunction_unresolved (fs : List FunctionTool) (functionCall : FunctionCallData)
    (toolCallId : String) (acc : UsageDataAccumulator)
    (ledger : List ToolInvocationResult)
    (h : OpenAi.resolveFunction fs functionCall.name = none) :
    OpenAi.callFunction (some fs) functionCall toolCallId acc ledger =
      (acc, ledger, .ok [OpenAi.nonexistentFunctionMessage functionCall.name toolCallId]) := by
  simp only [OpenAi.callFunction, h]

theorem callTools_all_unresolved :
    ∀ (toolCalls : List ToolCall) (fs : List FunctionTool) (acc : UsageDataAccumulator)
      (ledger : List ToolInvocationResult),
      (∀ tc ∈ toolCalls, OpenAi.resolveFunction fs tc.function.name = none) →
      OpenAi.callTools (some fs) toolCalls acc ledger =
        (acc, ledger,
          .ok (toolCalls.map
            (fun tc => OpenAi.nonexistentFunctionMessage tc.function.name tc.id))) := by
  intro toolCalls
  induction toolCalls with
  | nil => intro fs acc ledger _; rfl
  | cons tc rest ih =>
      intro fs acc ledger h
      have h1 := h tc (by simp)
      have h2 : ∀ tc' ∈ rest, OpenAi.resolveFunction fs tc'.function.name = none :=
        fun tc' hm => h tc' (by simp [hm])
      simp only [OpenAi.callTools, callFunction_unresolved fs tc.function tc.id acc ledger h1,
        ih fs acc ledger h2, List.map_cons]
      rfl

/-! ## C10 — frame of an unresolved call, and its counting -/

/-- C10: a tool call that fails name resolution (or arrives when no tools
are registered) produces only the synthesized error tool message — the usage
accumulator (hence `callsPerTool` and `totalToolCalls`) and the invocation
ledger are returned unchanged, and no error is raised; yet
`handleToolCalls` still advances the executed-call counter by the full round
size including such calls, the counter that its guard checks against
`maxFunctionCalls` in later rounds. -/
theorem unresolvedCall_frame_counting :
    (∀ (fs : List FunctionTool) (functionCall : FunctionCallData) (toolCallId : String)
        (acc : UsageDataAccumulator) (ledger : List ToolInvocationResult),
        OpenAi.resolveFunction fs functionCall.name = none →
        OpenAi.callFunction (some fs) functionCall toolCallId acc ledger =
          (acc, ledger, .ok [OpenAi.nonexistentFunctionMessage functionCall.name toolCallId])) ∧
    (∀ (functionCall : FunctionCallData) (toolCallId : String)
        (acc : UsageDataAccumulator) (ledger : List ToolInvocationResult),
        OpenAi.callFunction none functionCall toolCallId acc ledger =
          (acc, ledger, .ok [OpenAi.noFunctionsMessage toolCallId])) ∧
    (∀ (fs : List FunctionTool) (maxFunctionCalls : Nat) (toolCalls : List ToolCall)
        (script : List OpenAi.ChatResponse) (st : OpenAi.LoopState) (current : Nat),
        current < maxFunctionCalls →
        (∀ tc ∈ toolCalls, OpenAi.resolveFunction fs tc.function.name = none) →
        OpenAi.handleToolCalls (some fs) maxFunctionCalls toolCalls script st current =
          OpenAi.generateResponseHelper (some fs) maxFunctionCalls [] script
            { history := (st.history ++ [OpenAi.toolCallMessage toolCalls]) ++
                toolCalls.map
                  (fun tc => OpenAi.nonexistentFunctionMessage tc.function.name tc.id),
              acc := st.acc, toolInvocations := st.toolInvocations }
            (current + toolCalls.length)) := by
  refine ⟨?_, ?_, ?_⟩
  · intro fs functionCall toolCallId acc ledger h
    exact callFunction_unresolved fs functionCall toolCallId acc ledger h
  · intro functionCall toolCallId acc ledger
    rfl
  · intro fs maxFunctionCalls toolCalls script st current hlt hall
    simp only [OpenAi.handleToolCalls]
    rw [if_neg (by omega)]
    simp only [callTools_all_unresolved toolCalls fs st.acc st.toolInvocations hall]

/-- C10 witness: a round of one unresolved call (`ghost`) with `echoTool`
registered leaves the accumulator and ledger unchanged, appends only the
error tool message, and advances the counter from 3 to 4. -/
theorem unresolvedCall_frame_counting_witness :
    OpenAi.callFunction (some [echoTool]) { name := "ghost", arguments := "\x7b\x7d" }
        "call_7" demoAccumulator [] =
      (demoAccumulator, [], .ok [OpenAi.nonexistentFunctionMessage "ghost" "call_7"]) ∧
    OpenAi.callFunction none { name := "ghost", arguments := "\x7b\x7d" }
        "call_7" demoAccumulator [] =
      (demoAccumulator, [], .ok [OpenAi.noFunctionsMessage "call_7"]) ∧
    OpenAi.handleToolCalls (some [echoTool]) 4
        [{ id := "call_7", function := { name := "ghost", arguments := "\x7b\x7d" } }]
        [] demoState 3 =
      OpenAi.generateResponseHelper (some [echoTool]) 4 [] []
        { history := (demoState.history ++
              [OpenAi.toolCallMessage
                [{ id := "call_7", function := { name := "ghost", arguments := "\x7b\x7d" } }]]) ++
            [OpenAi.nonexistentFunctionMessage "ghost" "call_7"],
          acc := demoState.acc, toolInvocations := demoState.toolInvocations }
        (3 + 1) :=
  ⟨unresolvedCall_frame_counting.1 [echoTool] { name := "ghost", arguments := "\x7b\x7d" }
      "call_7" demoAccumulator [] rfl,
   unresolvedCall_frame_counting.2.1 { name := "ghost", arguments := "\x7b\x7d" }
      "call_7" demoAccumulator [],
   unresolvedCall_frame_counting.2.2 [echoTool] 4
      [{ id := "call_7", function := { name := "ghost", arguments := "\x7b\x7d" } }]
      [] demoState 3 (by omega) (by intro tc hm; simp at hm; subst hm; rfl)⟩

/-! ## C3 — invalid-JSON arguments -/

/-- C3 counterexample: in the Chat-Completions loop, a resolved call whose
`argumentsText` is not valid JSON is *not* invoked with a fallback value —
`callFunction` records the parse failure (`ok := false`, raw-string input)
and re-raises, aborting the tool-invocation loop; the accumulator is
untouched, so the tool was never invoked. -/
theorem invalidJson_aborts_counterexample :
    Json.parse "not json" = none ∧
    OpenAi.callFunction (some [echoTool]) { name := "echo", arguments := "not json" }
        "call_1" demoAccumulator [] =
      (demoAccumulator,
        [{ id := "call_1", name := "echo", input := .raw "not json", ok := false,
           error := some jsonParseErrorMessage }],
        .error jsonParseErrorMessage) := ⟨rfl, rfl⟩

/-- C3 (amended): the parse-failure-does-not-abort behavior holds in the
Responses-API loop — `executeFunctionCall` falls back to an empty object,
still invokes the tool with it, records the successful invocation with
that empty object as its ledger `input`, and returns the output
non-fatally (the raw-string fallback is kept only for failure records).
In the Chat-Completions loop, `callFunction` instead records the parse
failure with the raw string as input and re-raises, so the call aborts
without invoking the tool. -/
theorem invalidJson_behavior_amended :
    (∀ (fs : List FunctionTool) (call : OpenAiResponses.ResponsesFunctionCall)
        (acc : UsageDataAccumulator) (ledger : List ToolInvocationResult)
        (f : FunctionTool) (ret : ToolReturn),
        Json.parse call.arguments = none →
        OpenAiResponses.resolveFunction fs call.name = some f →
        f.call (.obj []) = .ok ret →
        OpenAiResponses.executeFunctionCall fs call acc ledger =
          (acc.recordToolCall f.definition.name,
            ledger ++ [{ id := call.call_id, name := f.definition.name,
                         input := .parsed (.obj []), ok := true, data := some ret }],
            .ok { call_id := call.call_id,
                  output := OpenAiResponses.formatToolReturn ret })) ∧
    (∀ (fs : List FunctionTool) (functionCall : FunctionCallData) (toolCallId : String)
        (acc : UsageDataAccumulator) (ledger : List ToolInvocationResult)
        (f : FunctionTool),
        Json.parse functionCall.arguments = none →
        OpenAi.resolveFunction fs functionCall.name = some f →
        OpenAi.callFunction (some fs) functionCall toolCallId acc ledger =
          (acc,
            ledger ++ [{ id := toolCallId,
                         name := OpenAi.shortFunctionName functionCall.name,
                         input := .raw functionCall.arguments, ok := false,
                         error := some jsonParseErrorMessage }],
            .error jsonParseErrorMessage)) := by
  constructor
  · intro fs call acc ledger f ret hparse hresolve hcall
    simp only [OpenAiResponses.executeFunctionCall, hparse, hresolve, Option.getD, hcall]
  · intro fs functionCall toolCallId acc ledger f hparse hresolve
    simp only [OpenAi.callFunction, hparse, hresolve]

/-- C3 witness: with arguments `"oops("`, the Responses loop still invokes
`echoTool` on the empty object and continues with output `"\x7b\x7d"`, while
the Chat-Completions loop aborts. -/
theorem invalidJson_behavior_amended_witness :
    OpenAiResponses.executeFunctionCall [echoTool]
        { call_id := "call_2", name := "echo", arguments := "oops(" } demoAccumulator [] =
      (demoAccumulator.recordToolCall "echo",
        [{ id := "call_2", name := "echo", input := .parsed (.obj []), ok := true,
           data := some (.json (.obj [])) }],
        .ok { call_id := "call_2",
              output := OpenAiResponses.formatToolReturn (.json (.obj [])) }) ∧
    OpenAi.callFunction (some [echoTool]) { name := "echo", arguments := "oops(" }
        "call_2" demoAccumulator [] =
      (demoAccumulator,
        [{ id := "call_2", name := OpenAi.shortFunctionName "echo",
           input := .raw "oops(", ok := false, error := some jsonParseErrorMessage }],
        .error jsonParseErrorMessage) :=
  ⟨invalidJson_behavior_amended.1 [echoTool]
      { call_id := "call_2", name := "echo", arguments := "oops(" } demoAccumulator []
      echoTool (.json (.obj [])) rfl rfl rfl,
   invalidJson_behavior_amended.2 [echoTool] { name := "echo", arguments := "oops(" }
      "call_2" demoAccumulator [] echoTool rfl rfl⟩

/-! ## C4 — tool-name resolution -/

/-- C4 counterexample: a tool registered under the qualified name `"ns.foo"`
and invoked by exactly that name is *not* resolved by `OpenAi.callFunction` —
the name is stripped to `"foo"` before the only lookup, so the exact match is
never tried and the synthesized nonexistent-function message is returned. -/
theorem toolResolution_exact_counterexample :
    qualifiedTool.definition.name = "ns.foo" ∧
    OpenAi.callFunction (some [qualifiedTool]) { name := "ns.foo", arguments := "\x7b\x7d" }
        "call_1" demoAccumulator [] =
      (demoAccumulator, [],
        .ok [OpenAi.nonexistentFunctionMessage "ns.foo" "call_1"]) := ⟨rfl, rfl⟩

/-- C4 (amended): `OpenAiResponses.executeFunctionCall` resolves by the
claimed two-step lookup — an exact raw-name match wins, and only when it
fails is the dotted-suffix match consulted.  `OpenAi.callFunction` instead
strips the dotted namespace from the call name *first* and matches only the
stripped name exactly, so a registration reachable only by its qualified
name is never found.  In both loops an unresolved call synthesizes the
nonexistent-function error tool-result and continues non-fatally (the
Responses loop additionally pushes an `ok := false` ledger record). -/
theorem toolResolution_amended :
    (∀ (fs : List FunctionTool) (rawName : String) (f : FunctionTool),
        fs.find? (fun fx => fx.definition.name == rawName) = some f →
        OpenAiResponses.resolveFunction fs rawName = some f) ∧
    (∀ (fs : List FunctionTool) (rawName : String) (g : FunctionTool),
        fs.find? (fun fx => fx.definition.name == rawName) = none →
        fs.find? (fun fx =>
            ((splitString fx.definition.name '.').getLastD fx.definition.name) ==
              ((splitString rawName '.').getLastD rawName)) = some g →
        OpenAiResponses.resolveFunction fs rawName = some g) ∧
    (∀ (fs : List FunctionTool) (name : String),
        (∀ fx ∈ fs, fx.definition.name ≠ OpenAi.shortFunctionName name) →
        OpenAi.resolveFunction fs name = none) ∧
    (∀ (fs : List FunctionTool) (functionCall : FunctionCallData) (toolCallId : String)
        (acc : UsageDataAccumulator) (ledger : List ToolInvocationResult),
        OpenAi.resolveFunction fs functionCall.name = none →
        OpenAi.callFunction (some fs) functionCall toolCallId acc ledger =
          (acc, ledger,
            .ok [OpenAi.nonexistentFunctionMessage functionCall.name toolCallId])) ∧
    (∀ (fs : List FunctionTool) (call : OpenAiResponses.ResponsesFunctionCall)
        (acc : UsageDataAccumulator) (ledger : List ToolInvocationResult),
        OpenAiResponses.resolveFunction fs call.name = none →
        OpenAiResponses.executeFunctionCall fs call acc ledger =
          (acc,
            ledger ++ [{ id := call.call_id,
                         name := (splitString call.name '.').getLastD call.name,
                         input := OpenAiResponses.parsedOrRaw call.arguments, ok := false,
                         error := some nonexistentFunctionErrorMessage }],
            .ok { call_id := call.call_id,
                  output := Json.stringify (.obj
                    [("error", .str nonexistentFunctionErrorMessage),
                     ("functionName",
                      .str ((splitString call.name '.').getLastD call.name))]) })) := by
  refine ⟨?_, ?_, ?_, ?_, ?_⟩
  · intro fs rawName f h
    simp only [OpenAiResponses.resolveFunction, h, Option.orElse]
  · intro fs rawName g h1 h2
    simp only [OpenAiResponses.resolveFunction, h1, h2, Option.orElse]
  · intro fs name h
    simp only [OpenAi.resolveFunction, List.find?_eq_none, beq_iff_eq]
    intro fx hm
    exact h fx hm
  · intro fs functionCall toolCallId acc ledger h
    exact callFunction_unresolved fs functionCall toolCallId acc ledger h
  · intro fs call acc ledger h
    simp only [OpenAiResponses.executeFunctionCall, h]

/-- C4 witness: the two-step lookup prefers the exact qualified match;
`"ns.foo"` resolved against a registry holding only the short-named tool
falls back to the suffix match; `OpenAi.callFunction` and
`OpenAiResponses.executeFunctionCall` both continue after an unresolved
call. -/
theorem toolResolution_amended_witness :
    OpenAiResponses.resolveFunction [qualifiedTool] "ns.foo" = some qualifiedTool ∧
    OpenAiResponses.resolveFunction [boomTool] "ns.boom" = some boomTool ∧
    OpenAi.resolveFunction [qualifiedTool] "ns.foo" = none ∧
    OpenAi.callFunction (some [qualifiedTool]) { name := "ghost", arguments := "\x7b\x7d" }
        "call_3" demoAccumulator [] =
      (demoAccumulator, [], .ok [OpenAi.nonexistentFunctionMessage "ghost" "call_3"]) ∧
    OpenAiResponses.executeFunctionCall [qualifiedTool]
        { call_id := "call_3", name := "ghost", arguments := "\x7b\x7d" }
        demoAccumulator [] =
      (demoAccumulator,
        [{ id := "call_3", name := (splitString "ghost" '.').getLastD "ghost",
           input := OpenAiResponses.parsedOrRaw "\x7b\x7d", ok := false,
           error := some nonexistentFunctionErrorMessage }],
        .ok { call_id := "call_3",
              output := Json.stringify (.obj
                [("error", .str nonexistentFunctionErrorMessage),
                 ("functionName", .str ((splitString "ghost" '.').getLastD "ghost"))]) }) :=
  ⟨toolResolution_amended.1 [qualifiedTool] "ns.foo" qualifiedTool rfl,
   toolResolution_amended.2.1 [boomTool] "ns.boom" boomTool rfl rfl,
   toolResolution_amended.2.2.1 [qualifiedTool] "ns.foo"
     (by intro fx hm; simp at hm; subst hm; decide),
   toolResolution_amended.2.2.2.1 [qualifiedTool] { name := "ghost", arguments := "\x7b\x7d" }
     "call_3" demoAccumulator [] rfl,
   toolResolution_amended.2.2.2.2 [qualifiedTool]
     { call_id := "call_3", name := "ghost", arguments := "\x7b\x7d" } demoAccumulator [] rfl⟩


/-! ## Reassembler lemmas and C2 -/

open OpenAiStreamProcessor

theorem truthy_none : truthy none = false := rfl

/-- A continuation delta (no id) applies `applyFragment` to the current
call, leaving the accumulated calls alone. -/
theorem applyToolCallDelta_fragment (acc : List PartialToolCall) (c : PartialToolCall)
    (fr : DeltaFunctionFragment) :
    applyToolCallDelta ⟨acc, some c⟩ (fragmentDelta fr) =
      some ⟨acc, some (applyFragment c fr)⟩ := by
  obtain ⟨n, a⟩ := fr
  simp only [applyToolCallDelta, fragmentDelta, truthy_none, Option.bind, Bool.false_eq_true,
    if_false]
  split
  · rfl
  · rename_i hcond
    have hn : truthy n = false := by revert hcond; cases truthy n <;> simp
    have ha : truthy a = false := by revert hcond; cases truthy a <;> simp
    simp [applyFragment, hn, ha]

/-- A run of continuation deltas folds `applyFragment` over the current
call. -/
theorem handleToolCallDelta_fragments :
    ∀ (frs : List DeltaFunctionFragment) (acc : List PartialToolCall) (c : PartialToolCall),
      handleToolCallDelta ⟨acc, some c⟩ (frs.map fragmentDelta) =
        some ⟨acc, some (frs.foldl applyFragment c)⟩ := by
  intro frs
  induction frs with
  | nil => intro acc c; rfl
  | cons fr rest ih =>
      intro acc c
      show (applyToolCallDelta ⟨acc, some c⟩ (fragmentDelta fr) >>= fun st =>
        List.foldlM applyToolCallDelta st (rest.map fragmentDelta)) = _
      rw [applyToolCallDelta_fragment]
      exact ih acc (applyFragment c fr)

/-- An id-introducing delta flushes the current call and starts the group's
initial call. -/
theorem applyToolCallDelta_idDelta (g : DeltaGroup) (h : ¬ g.id.isEmpty = true)
    (acc : List PartialToolCall) (cur : Option PartialToolCall) :
    applyToolCallDelta ⟨acc, cur⟩ g.idDelta =
      some ⟨flushToolCalls ⟨acc, cur⟩, some g.initialCall⟩ := by
  unfold applyToolCallDelta DeltaGroup.idDelta DeltaGroup.initialCall flushToolCalls
  simp only [truthy, Option.bind, Option.getD]
  rw [if_pos (by simpa using h)]

/-- Processing contiguously streamed groups from any state appends their
reconstructions after the flushed state. -/
theorem reassemble_groups_aux :
    ∀ (gs : List DeltaGroup) (acc : List PartialToolCall) (cur : Option PartialToolCall),
      (∀ g ∈ gs, ¬ g.id.isEmpty = true) →
      (handleToolCallDelta ⟨acc, cur⟩ (gs.flatMap DeltaGroup.toDeltas)).map flushToolCalls =
        some (flushToolCalls ⟨acc, cur⟩ ++ gs.map DeltaGroup.reconstruct) := by
  intro gs
  induction gs with
  | nil => intro acc cur _; simp [handleToolCallDelta, flushToolCalls]
  | cons g rest ih =>
      intro acc cur h
      have hg : ¬ g.id.isEmpty = true := h g (by simp)
      have hrest : ∀ g' ∈ rest, ¬ g'.id.isEmpty = true := fun g' hm => h g' (by simp [hm])
      have hhead : handleToolCallDelta ⟨acc, cur⟩ g.toDeltas =
          some ⟨flushToolCalls ⟨acc, cur⟩, some g.reconstruct⟩ := by
        show (applyToolCallDelta ⟨acc, cur⟩ g.idDelta >>= fun st =>
          List.foldlM applyToolCallDelta st (g.contFragments.map fragmentDelta)) = _
        rw [applyToolCallDelta_idDelta g hg acc cur]
        exact handleToolCallDelta_fragments g.contFragments _ _
      simp only [handleToolCallDelta] at hhead ⊢
      rw [List.flatMap_cons, List.foldlM_append, hhead]
      have htail := ih (flushToolCalls ⟨acc, cur⟩) (some g.reconstruct) hrest
      simp only [handleToolCallDelta] at htail
      show (List.foldlM applyToolCallDelta
        (⟨flushToolCalls ⟨acc, cur⟩, some g.reconstruct⟩ : StreamAssemblyState)
        (rest.flatMap DeltaGroup.toDeltas)).map flushToolCalls = _
      rw [htail]
      simp [flushToolCalls, List.append_assoc]

/-- C2 (amended): the reassembler associates an id-less delta with the most
recently introduced call, so reconstruction with per-call concatenation is
guaranteed for contiguously streamed calls: for every sequence of delta
groups (each call's id delta immediately followed by its continuation
deltas), every call is reconstructed with its argument fragments
concatenated in order.  Under the interleaving of the original claim the
later fragments of the first call attach to the second call
(see the counterexample). -/
theorem reassembler_contiguous_reconstruction (gs : List DeltaGroup)
    (h : ∀ g ∈ gs, ¬ g.id.isEmpty = true) :
    reassembleToolCalls (gs.flatMap DeltaGroup.toDeltas) =
      some (gs.map DeltaGroup.reconstruct) := by
  have := reassemble_groups_aux gs [] none h
  simpa [reassembleToolCalls, flushToolCalls] using this

/-- C2 counterexample: for the interleaved sequence (A's id delta, B's id
delta, a later A-argument delta, a later B-argument delta) the reassembler
attaches A's later fragment `"a2"` to call B — call A ends with arguments
`"a1"` and call B with `"b1a2b2"`, not the per-call concatenations
`"a1a2"` and `"b1b2"` the claim requires. -/
theorem reassembler_interleaving_counterexample :
    reassembleToolCalls interleavedDeltas =
      some [{ id := "call_A", type := "function", name := "toolA", arguments := "a1" },
            { id := "call_B", type := "function", name := "toolB", arguments := "b1a2b2" }] ∧
    reassembleToolCalls interleavedDeltas ≠
      some [{ id := "call_A", type := "function", name := "toolA", arguments := "a1a2" },
            { id := "call_B", type := "function", name := "toolB", arguments := "b1b2" }] := by
  constructor
  · rfl
  · decide

/-- C2 witness: the same two calls streamed contiguously reconstruct with
arguments `"a1a2"` and `"b1b2"`. -/
theorem reassembler_contiguous_witness :
    (∀ g ∈ contiguousGroups, ¬ g.id.isEmpty = true) ∧
    reassembleToolCalls (contiguousGroups.flatMap DeltaGroup.toDeltas) =
      some [{ id := "call_A", type := "function", name := "toolA", arguments := "a1a2" },
            { id := "call_B", type := "function", name := "toolB", arguments := "b1b2" }] :=
  ⟨by decide, reassembler_contiguous_reconstruction contiguousGroups (by decide)⟩

/-! ## C6 — finish-signal handling in the control stream -/

/-- C6: for a fragment whose first choice carries no content delta and no
tool-call deltas, `finishReason = "tool_calls"` only flips the
finished-tool-phase flag — no output event is pushed and the terminated flag
is untouched — while `finishReason` stop, length or content_filter
immediately pushes the terminal finish-reason marker followed by
end-of-stream and marks the output terminated. -/
theorem stream_finishReason_handling :
    ∀ (st : ControlState) (chunk : ChatCompletionChunk) (choice : ChunkChoice)
      (restChoices : List ChunkChoice),
      chunk.choices = some (choice :: restChoices) →
      truthy choice.delta.content = false →
      choice.delta.tool_calls = none →
      ((choice.finish_reason = some "tool_calls" →
          transformChunk false st chunk =
            ({ st with finishedProcessingToolCallStream := true }, [], .noEffect)) ∧
       (∀ r, (r = "stop" ∨ r = "length" ∨ r = "content_filter") →
          choice.finish_reason = some r →
          transformChunk false st chunk =
            ({ st with outputStreamTerminated := true },
              [.finishReason r, .endOfStream], .noEffect))) := by
  intro st chunk choice restChoices hchoices hcontent htc
  constructor
  · intro hfr
    simp [transformChunk, hchoices, hcontent, htc, hfr]
  · intro r hr hfr
    rcases hr with rfl | rfl | rfl <;>
      simp [transformChunk, hchoices, hcontent, htc, hfr]

/-- C6 witness: all four finish reasons at concrete chunks. -/
theorem stream_finishReason_handling_witness :
    transformChunk false {}
        { choices := some [{ finish_reason := some "tool_calls" }] } =
      ({ finishedProcessingToolCallStream := true }, [], .noEffect) ∧
    transformChunk false {}
        { choices := some [{ finish_reason := some "stop" }] } =
      ({ outputStreamTerminated := true }, [.finishReason "stop", .endOfStream], .noEffect) ∧
    transformChunk false {}
        { choices := some [{ finish_reason := some "length" }] } =
      ({ outputStreamTerminated := true }, [.finishReason "length", .endOfStream], .noEffect) ∧
    transformChunk false {}
        { choices := some [{ finish_reason := some "content_filter" }] } =
      ({ outputStreamTerminated := true },
        [.finishReason "content_filter", .endOfStream], .noEffect) :=
  ⟨(stream_finishReason_handling {} _ { finish_reason := some "tool_calls" } [] rfl rfl rfl).1
      rfl,
   (stream_finishReason_handling {} _ { finish_reason := some "stop" } [] rfl rfl rfl).2
      "stop" (Or.inl rfl) rfl,
   (stream_finishReason_handling {} _ { finish_reason := some "length" } [] rfl rfl rfl).2
      "length" (Or.inr (Or.inl rfl)) rfl,
   (stream_finishReason_handling {} _ { finish_reason := some "content_filter" } [] rfl rfl rfl).2
      "content_filter" (Or.inr (Or.inr rfl)) rfl⟩
